import Mathlib

/-!
Verification of the AirShield background-task scheduler
(`backend/app/services/scheduler_service.py`, class `SchedulerService`).

The scheduler state is embedded shallowly:
* Python `datetime` values become `Nat` (seconds); `timedelta(minutes=5)` is `300`.
* The two dicts `self.tasks` and `self.task_handlers` become association
  lists with string keys; Python dicts have unique keys, which the
  predicate `goodState` records where a proof needs it.
* A handler is an opaque callable; the scheduler only observes its outcome,
  so `_execute_task` takes the outcome (`ok result`, `err message`, or an
  observed cancellation) as a parameter, together with the two wall-clock
  readings the method makes (`last_run` before the call, `next_run` after).
* Python truthiness on `Optional[int]` fields (`if task["max_runs"] and ...`,
  `elif task["interval_seconds"]:`, `if new_interval:`) is `truthy`, which is
  false both for `None` and for `0`.
-/

namespace AirShield

/-- A handler result: a small JSON-like record, modelled as string-keyed
integer fields (enough for results such as a deleted-row count). -/
abbrev Value := List (String × Int)

/-- `TaskStatus` enum from the source. -/
inductive TaskStatus where
  | pending
  | running
  | completed
  | failed
  | cancelled
deriving DecidableEq, Repr

/-- `TaskPriority` enum from the source. -/
inductive TaskPriority where
  | low
  | normal
  | high
  | urgent
deriving DecidableEq, Repr

/-- One task record: the dict built in `schedule_task`, with the handler kept
as an opaque reference (`Nat` identifier).  The `last_error` key only appears
on a record after a failure in Python; here it is an `Option` that starts out
`none`. -/
structure Task where
  id : String
  handler : Nat
  next_run : Nat
  interval_seconds : Option Nat
  max_runs : Option Nat
  run_count : Nat
  priority : TaskPriority
  status : TaskStatus
  created_at : Nat
  last_run : Option Nat
  last_result : Option Value
  last_error : Option String
deriving DecidableEq, Repr

/-- What the scheduler observes of one handler invocation: a returned result,
a raised exception (its message), or an `asyncio.CancelledError` observed
while awaiting the handler. -/
inductive HandlerOutcome where
  | ok (result : Value)
  | err (message : String)
  | interrupted
deriving DecidableEq, Repr

/-- The mutable state of a `SchedulerService` instance: the `tasks` dict and
the `task_handlers` dict, as insertion-ordered association lists. -/
structure SchedulerState where
  tasks : List (String × Task)
  task_handlers : List (String × Nat)
deriving DecidableEq, Repr

/-- Dict lookup on an association list: the first binding of the key. -/
def lookupKey {β : Type} : List (String × β) → String → Option β
  | [], _ => none
  | p :: rest, k => if p.1 = k then some p.2 else lookupKey rest k

/-- Dict assignment `d[k] = v`: overwrite the existing binding in place, or
append a new binding (Python dicts preserve insertion order). -/
def insertKey {β : Type} (l : List (String × β)) (k : String) (v : β) :
    List (String × β) :=
  if (lookupKey l k).isSome then l.map (fun p => (p.1, if p.1 = k then v else p.2))
  else l ++ [(k, v)]

/-- In-place mutation of the record bound to `id` (Python task dicts are
mutated through the reference held in `self.tasks`). -/
def updateTask (l : List (String × Task)) (id : String) (f : Task → Task) :
    List (String × Task) :=
  l.map (fun p => (p.1, if p.1 = id then f p.2 else p.2))

/-- `del d[k]`. -/
def eraseKey {β : Type} (l : List (String × β)) (k : String) :
    List (String × β) :=
  l.filter (fun p => p.1 != k)

/-- Python truthiness of an `Optional[int]`: `None` and `0` are falsy. -/
def truthy : Option Nat → Bool
  | none => false
  | some n => n != 0

/-- The guard `task["max_runs"] and task["run_count"] >= task["max_runs"]`
evaluated at updated run count `rc`. -/
def maxRunsReached (mx : Option Nat) (rc : Nat) : Bool :=
  truthy mx && decide (mx.getD 0 ≤ rc)

/-- `_execute_task` (lines 178-210) acting on one task record.  `startNow` is
the `datetime.utcnow()` stored into `last_run` before the handler runs,
`endNow` the one read after the handler returns (used for the next `next_run`).
The transient `status=RUNNING` assignment is overwritten on every exit path of
the method, so only the final record is observable here. -/
def executeTask (t : Task) (startNow endNow : Nat) (outcome : HandlerOutcome) :
    Task :=
  let t1 := { t with status := TaskStatus.running, last_run := some startNow }
  match outcome with
  | HandlerOutcome.ok result =>
      if maxRunsReached t.max_runs (t.run_count + 1) then
        { t1 with last_result := some result, run_count := t.run_count + 1,
                  status := TaskStatus.completed }
      else if truthy t.interval_seconds then
        { t1 with last_result := some result, run_count := t.run_count + 1,
                  next_run := endNow + t.interval_seconds.getD 0,
                  status := TaskStatus.pending }
      else
        { t1 with last_result := some result, run_count := t.run_count + 1,
                  status := TaskStatus.completed }
  | HandlerOutcome.err msg =>
      { t1 with status := TaskStatus.failed, last_error := some msg }
  | HandlerOutcome.interrupted =>
      { t1 with status := TaskStatus.cancelled }

/-- `schedule_task` (lines 81-118).  `now` is `datetime.utcnow()` stored into
`created_at`. -/
def scheduleTask (s : SchedulerState) (task_id : String) (task_handler : Nat)
    (start_time : Nat) (interval_seconds : Option Nat) (max_runs : Option Nat)
    (priority : TaskPriority) (now : Nat) : Bool × SchedulerState :=
  if (lookupKey s.tasks task_id).isSome then
    (false, s)
  else
    let task : Task :=
      { id := task_id, handler := task_handler, next_run := start_time,
        interval_seconds := interval_seconds, max_runs := max_runs,
        run_count := 0, priority := priority, status := TaskStatus.pending,
        created_at := now, last_run := none, last_result := none,
        last_error := none }
    (true, { tasks := insertKey s.tasks task_id task,
             task_handlers := insertKey s.task_handlers task_id task_handler })

/-- `cancel_task` (lines 120-138): unconditionally marks any existing record
`CANCELLED` and removes its entry from `task_handlers`. -/
def cancelTask (s : SchedulerState) (task_id : String) : Bool × SchedulerState :=
  match lookupKey s.tasks task_id with
  | none => (false, s)
  | some _ =>
      (true,
       { tasks := updateTask s.tasks task_id (fun t => { t with status := TaskStatus.cancelled }),
         task_handlers := eraseKey s.task_handlers task_id })

/-- `pause_task` (lines 140-156). -/
def pauseTask (s : SchedulerState) (task_id : String) : Bool × SchedulerState :=
  match lookupKey s.tasks task_id with
  | none => (false, s)
  | some t =>
      if t.status = TaskStatus.pending then
        (true, { s with tasks := updateTask s.tasks task_id (fun u => { u with status := TaskStatus.cancelled }) })
      else (false, s)

/-- `resume_task` (lines 158-176): `new_start_time or utcnow() + 5 minutes`
resolves to the default exactly when `new_start_time` is `None` (datetimes are
always truthy). -/
def resumeTask (s : SchedulerState) (task_id : String)
    (new_start_time : Option Nat) (now : Nat) : Bool × SchedulerState :=
  match lookupKey s.tasks task_id with
  | none => (false, s)
  | some t =>
      if t.status = TaskStatus.cancelled then
        (true, { s with tasks := updateTask s.tasks task_id (fun u =>
                   { u with status := TaskStatus.pending,
                            next_run := new_start_time.getD (now + 300) }) })
      else (false, s)

/-- `reschedule_task` (lines 384-406); `if new_interval:` is a truthiness
test, so `0` leaves the stored interval unchanged. -/
def rescheduleTask (s : SchedulerState) (task_id : String)
    (new_start_time : Nat) (new_interval : Option Nat) : Bool × SchedulerState :=
  match lookupKey s.tasks task_id with
  | none => (false, s)
  | some _ =>
      (true, { s with tasks := updateTask s.tasks task_id (fun t =>
                 let t1 := { t with next_run := new_start_time }
                 let t2 := if truthy new_interval
                           then { t1 with interval_seconds := new_interval }
                           else t1
                 { t2 with status := TaskStatus.pending }) })

/-- `force_run_task` (lines 370-382): any existing record is handed to
`_execute_task` regardless of its status or `next_run`; `_execute_task`
catches every handler exception itself, so `force_run_task` returns `True`
whenever the id exists. -/
def forceRunTask (s : SchedulerState) (task_id : String) (startNow endNow : Nat)
    (outcome : HandlerOutcome) : Bool × SchedulerState :=
  match lookupKey s.tasks task_id with
  | none => (false, s)
  | some _ =>
      (true, { s with tasks := updateTask s.tasks task_id (fun t => executeTask t startNow endNow outcome) })

/-- The due-task test of the loop body (line 69). -/
def dueNow (t : Task) (now : Nat) : Bool :=
  decide (t.status = TaskStatus.pending ∧ t.next_run ≤ now)

/-- The effect of one loop scan on one record: due records are executed with
their own handler outcome and clock readings, others are untouched. -/
def tickOne (now : Nat) (o : String → HandlerOutcome) (st et : String → Nat)
    (id : String) (t : Task) : Task :=
  if dueNow t now then executeTask t (st id) (et id) (o id) else t

/-- One tick of `_scheduler_loop` (lines 61-79): it snapshots
`list(self.tasks.items())` and runs `_execute_task` on every record that is
`PENDING` and due at `current_time = now`.  Each execution mutates only its
own record and dict keys are unique, so the scan is the pointwise map below.
The second component lists the ids dispatched to the executor during the
tick. -/
def schedulerTick (s : SchedulerState) (now : Nat) (o : String → HandlerOutcome)
    (st et : String → Nat) : SchedulerState × List String :=
  ({ s with tasks := s.tasks.map (fun p => (p.1, tickOne now o st et p.1 p.2)) },
   (s.tasks.filter (fun p => dueNow p.2 now)).map Prod.fst)

/-- Per-tick environment: the loop's `current_time`, each dispatched task's
handler outcome, and the two wall-clock readings `_execute_task` makes for
it. -/
structure TickInput where
  now : Nat
  outcome : String → HandlerOutcome
  startT : String → Nat
  endT : String → Nat

/-- A run of consecutive loop ticks, accumulating every dispatched id. -/
def runTicks (s : SchedulerState) : List TickInput → SchedulerState × List String
  | [] => (s, [])
  | i :: rest =>
      ((runTicks (schedulerTick s i.now i.outcome i.startT i.endT).1 rest).1,
       (schedulerTick s i.now i.outcome i.startT i.endT).2 ++
         (runTicks (schedulerTick s i.now i.outcome i.startT i.endT).1 rest).2)

/-- Representation invariant inherited from Python dicts: keys of the task
registry are pairwise distinct. -/
def goodState (s : SchedulerState) : Prop :=
  (s.tasks.map Prod.fst).Nodup

instance (s : SchedulerState) : Decidable (goodState s) := by
  unfold goodState; infer_instance

/-- `run_count` never decreases between two states. -/
def runCountMono (s s' : SchedulerState) : Prop :=
  ∀ id t t', lookupKey s.tasks id = some t → lookupKey s'.tasks id = some t' →
    t.run_count ≤ t'.run_count

/-- A concrete pending recurring task used to instantiate the theorems. -/
def samplePending : Task :=
  { id := "job", handler := 1, next_run := 100, interval_seconds := some 60,
    max_runs := none, run_count := 0, priority := TaskPriority.normal,
    status := TaskStatus.pending, created_at := 0, last_run := none,
    last_result := none, last_error := none }

/-- A task whose `max_runs` field holds `0`: present but falsy in Python. -/
def sampleZeroMax : Task :=
  { samplePending with max_runs := some 0, interval_seconds := some 86400 }

/-- A task in the terminal `COMPLETED` state. -/
def sampleCompleted : Task := { samplePending with status := TaskStatus.completed }

/-- A task in the `CANCELLED` state. -/
def sampleCancelled : Task := { samplePending with status := TaskStatus.cancelled }

/-- A task in the terminal `FAILED` state. -/
def sampleFailed : Task := { samplePending with status := TaskStatus.failed }

/-- The registry of a freshly constructed `SchedulerService`. -/
def emptyState : SchedulerState := { tasks := [], task_handlers := [] }

/-- A registry holding one pending task. -/
def statePending : SchedulerState :=
  { tasks := [("job", samplePending)], task_handlers := [("job", 1)] }

/-- A registry holding one completed task. -/
def stateCompleted : SchedulerState :=
  { tasks := [("done", sampleCompleted)], task_handlers := [("done", 1)] }

/-- A registry holding one cancelled task. -/
def stateCancelled : SchedulerState :=
  { tasks := [("paused", sampleCancelled)], task_handlers := [] }

/-- A registry holding one due pending task and one failed task. -/
def stateMixed : SchedulerState :=
  { tasks := [("a", samplePending), ("f", sampleFailed)], task_handlers := [("a", 1)] }

/-- A tick at time 200 whose handlers all succeed with an empty result. -/
def sampleTick : TickInput :=
  { now := 200, outcome := fun _ => HandlerOutcome.ok [],
    startT := fun _ => 200, endT := fun _ => 200 }

/-- A tick at time 200 whose handlers all raise. -/
def failTick : TickInput :=
  { now := 200, outcome := fun _ => HandlerOutcome.err "boom",
    startT := fun _ => 200, endT := fun _ => 200 }

/-- The spec's recurring-cleanup scenario: `schedule("cleanup", H, T0,
interval=86400)` into an empty registry, then one loop tick at `tickT` whose
handler returns the record `deleted = 5`; `es`/`ee` are the executor's two
clock readings. -/
def cleanupAfterTick (hd T0 cAt tickT es ee : Nat) : SchedulerState :=
  (schedulerTick
    (scheduleTask emptyState "cleanup" hd T0 (some 86400) none
      TaskPriority.normal cAt).2
    tickT (fun _ => HandlerOutcome.ok [("deleted", 5)])
    (fun _ => es) (fun _ => ee)).1

/- Association-list lemmas. -/

theorem lookupKey_map_keyed {β γ : Type} (f : String → β → γ) :
    ∀ (l : List (String × β)) (k : String),
      lookupKey (l.map (fun p => (p.1, f p.1 p.2))) k = (lookupKey l k).map (f k)
  | [], _ => rfl
  | p :: rest, k => by
    by_cases h : p.1 = k
    · simp [lookupKey, h]
    · simp [lookupKey, h, lookupKey_map_keyed f rest k]

theorem lookupKey_updateTask (l : List (String × Task)) (id k : String)
    (f : Task → Task) :
    lookupKey (updateTask l id f) k =
      (lookupKey l k).map (fun t => if k = id then f t else t) :=
  lookupKey_map_keyed (fun a t => if a = id then f t else t) l k

theorem lookupKey_updateTask_self (l : List (String × Task)) (id : String)
    (f : Task → Task) :
    lookupKey (updateTask l id f) id = (lookupKey l id).map f := by
  rw [lookupKey_updateTask]
  cases lookupKey l id <;> simp

theorem lookupKey_append_some {β : Type} :
    ∀ (l m : List (String × β)) (k : String) (v : β),
      lookupKey l k = some v → lookupKey (l ++ m) k = some v
  | [], _, _, _, h => by simp [lookupKey] at h
  | p :: rest, m, k, v, h => by
    by_cases hp : p.1 = k
    · simp [lookupKey, hp] at h ⊢; exact h
    · simp only [lookupKey, hp, if_false] at h
      simpa [lookupKey, hp] using lookupKey_append_some rest m k v h

theorem lookupKey_append_none {β : Type} :
    ∀ (l m : List (String × β)) (k : String),
      lookupKey l k = none → lookupKey (l ++ m) k = lookupKey m k
  | [], _, _, _ => rfl
  | p :: rest, m, k, h => by
    by_cases hp : p.1 = k
    · simp [lookupKey, hp] at h
    · simp only [lookupKey, hp, if_false] at h
      simpa [lookupKey, hp] using lookupKey_append_none rest m k h

theorem insertKey_not_present {β : Type} (l : List (String × β)) (k : String)
    (v : β) (h : lookupKey l k = none) : insertKey l k v = l ++ [(k, v)] := by
  simp [insertKey, h]

theorem lookupKey_eraseKey {β : Type} :
    ∀ (l : List (String × β)) (k : String), lookupKey (eraseKey l k) k = none
  | [], _ => rfl
  | p :: rest, k => by
    by_cases hp : p.1 = k
    · simpa [eraseKey, hp] using lookupKey_eraseKey rest k
    · simpa [eraseKey, lookupKey, hp] using lookupKey_eraseKey rest k

theorem lookupKey_mem {β : Type} :
    ∀ {l : List (String × β)} {k : String} {v : β},
      lookupKey l k = some v → (k, v) ∈ l := by
  intro l
  induction l with
  | nil => intro k v h; simp [lookupKey] at h
  | cons p rest ih =>
    intro k v h
    by_cases hp : p.1 = k
    · simp [lookupKey, hp] at h
      subst h; rw [← hp]
      exact List.mem_cons_self _ _
    · simp only [lookupKey, hp, if_false] at h
      exact List.mem_cons_of_mem p (ih h)

theorem mem_lookupKey {β : Type} :
    ∀ {l : List (String × β)} {k : String} {v : β},
      (l.map Prod.fst).Nodup → (k, v) ∈ l → lookupKey l k = some v := by
  intro l
  induction l with
  | nil => intro k v _ h; simp at h
  | cons p rest ih =>
    intro k v hnd hm
    have hnd' := (List.nodup_cons.mp hnd)
    rcases List.mem_cons.mp hm with heq | hmem
    · rw [← heq]; simp [lookupKey]
    · by_cases hp : p.1 = k
      · exfalso
        exact hnd'.1 (hp ▸ List.mem_map.mpr ⟨(k, v), hmem, rfl⟩)
      · simp only [lookupKey, hp, if_false]
        exact ih hnd'.2 hmem

theorem keys_map_keyed {β γ : Type} (f : String → β → γ)
    (l : List (String × β)) :
    (l.map (fun p => (p.1, f p.1 p.2))).map Prod.fst = l.map Prod.fst := by
  induction l with
  | nil => rfl
  | cons p rest ih => simp [ih]

theorem updateTask_keys (l : List (String × Task)) (id : String)
    (f : Task → Task) : (updateTask l id f).map Prod.fst = l.map Prod.fst := by
  unfold updateTask
  induction l with
  | nil => rfl
  | cons p rest ih => simp [ih]

/- Tick lemmas. -/

theorem lookupKey_tick (s : SchedulerState) (now : Nat)
    (o : String → HandlerOutcome) (st et : String → Nat) (id : String) :
    lookupKey (schedulerTick s now o st et).1.tasks id =
      (lookupKey s.tasks id).map (tickOne now o st et id) :=
  lookupKey_map_keyed (tickOne now o st et) s.tasks id

theorem tick_keys (s : SchedulerState) (now : Nat)
    (o : String → HandlerOutcome) (st et : String → Nat) :
    (schedulerTick s now o st et).1.tasks.map Prod.fst = s.tasks.map Prod.fst :=
  keys_map_keyed (tickOne now o st et) s.tasks

theorem goodState_tick (s : SchedulerState) (now : Nat)
    (o : String → HandlerOutcome) (st et : String → Nat) (hg : goodState s) :
    goodState (schedulerTick s now o st et).1 := by
  unfold goodState at hg ⊢
  rw [tick_keys]; exact hg

theorem mem_tick_dispatched (s : SchedulerState) (now : Nat)
    (o : String → HandlerOutcome) (st et : String → Nat) (id : String) :
    id ∈ (schedulerTick s now o st et).2 ↔
      ∃ t, (id, t) ∈ s.tasks ∧ dueNow t now = true := by
  simp only [schedulerTick, List.mem_map, List.mem_filter]
  constructor
  · rintro ⟨⟨a, b⟩, ⟨hm, hd⟩, rfl⟩
    exact ⟨b, hm, hd⟩
  · rintro ⟨t, hm, hd⟩
    exact ⟨(id, t), ⟨hm, hd⟩, rfl⟩

theorem dueNow_false_of_not_pending (t : Task) (now : Nat)
    (h : t.status ≠ TaskStatus.pending) : dueNow t now = false := by
  simp [dueNow, h]

theorem tickOne_not_pending (now : Nat) (o : String → HandlerOutcome)
    (st et : String → Nat) (id : String) (t : Task)
    (h : t.status ≠ TaskStatus.pending) : tickOne now o st et id t = t := by
  simp [tickOne, dueNow_false_of_not_pending t now h]

theorem runTicks_stable (inputs : List TickInput) :
    ∀ (s : SchedulerState) (id : String) (t : Task), goodState s →
      lookupKey s.tasks id = some t → t.status ≠ TaskStatus.pending →
      lookupKey (runTicks s inputs).1.tasks id = some t ∧
        id ∉ (runTicks s inputs).2 := by
  induction inputs with
  | nil => intro s id t _ hl _; exact ⟨hl, by simp [runTicks]⟩
  | cons i rest ih =>
    intro s id t hg hl hs
    have hl1 : lookupKey (schedulerTick s i.now i.outcome i.startT i.endT).1.tasks id
        = some t := by
      rw [lookupKey_tick, hl, Option.map_some']
      rw [tickOne_not_pending i.now i.outcome i.startT i.endT id t hs]
    have hg1 : goodState (schedulerTick s i.now i.outcome i.startT i.endT).1 :=
      goodState_tick s i.now i.outcome i.startT i.endT hg
    have hnd : id ∉ (schedulerTick s i.now i.outcome i.startT i.endT).2 := by
      intro hmem
      obtain ⟨t', hm, hd⟩ :=
        (mem_tick_dispatched s i.now i.outcome i.startT i.endT id).mp hmem
      have ht' : lookupKey s.tasks id = some t' := mem_lookupKey hg hm
      rw [hl] at ht'
      cases ht'
      rw [dueNow_false_of_not_pending t i.now hs] at hd
      exact Bool.false_ne_true hd
    have hrest := ih (schedulerTick s i.now i.outcome i.startT i.endT).1 id t hg1 hl1 hs
    refine ⟨hrest.1, ?_⟩
    simp only [runTicks, List.mem_append]
    rintro (h | h)
    · exact hnd h
    · exact hrest.2 h

/- Executor arithmetic. -/

theorem run_count_le_executeTask (t : Task) (sn en : Nat)
    (oc : HandlerOutcome) : t.run_count ≤ (executeTask t sn en oc).run_count := by
  cases oc with
  | ok r =>
    simp only [executeTask]
    split
    · simp
    · split <;> simp
  | err m => simp [executeTask]
  | interrupted => simp [executeTask]

theorem run_count_le_tickOne (now : Nat) (o : String → HandlerOutcome)
    (st et : String → Nat) (id : String) (t : Task) :
    t.run_count ≤ (tickOne now o st et id t).run_count := by
  unfold tickOne
  split
  · exact run_count_le_executeTask t (st id) (et id) (o id)
  · exact Nat.le_refl _

theorem runCountMono_self (s : SchedulerState) : runCountMono s s := by
  intro id t t' h1 h2
  rw [h1] at h2; cases h2; exact Nat.le_refl _

theorem runCountMono_of_update (s : SchedulerState)
    (tasks' : List (String × Task)) (handlers' : List (String × Nat))
    (id : String) (f : Task → Task)
    (hf : ∀ t, t.run_count ≤ (f t).run_count)
    (heq : tasks' = updateTask s.tasks id f) :
    runCountMono s { tasks := tasks', task_handlers := handlers' } := by
  intro k t t' h1 h2
  simp only [heq] at h2
  rw [lookupKey_updateTask, h1, Option.map_some'] at h2
  cases h2
  split
  · exact hf t
  · exact Nat.le_refl _

/-- Claim C1, counterexample.  The claim reads "if `max_runs` is set and the
new `run_count >= max_runs`, status becomes COMPLETED".  `_execute_task`
tests `if task["max_runs"] and ...`, which is false for `max_runs = 0` even
though `0` is a set value and the new run count `1 >= 0`; with an interval
also present the task becomes PENDING instead of COMPLETED. -/
theorem executeTask_maxRuns_zero_counterexample :
    sampleZeroMax.max_runs = some 0 ∧
    (executeTask sampleZeroMax 50 60 (HandlerOutcome.ok [("deleted", 5)])).run_count = 1 ∧
    sampleZeroMax.max_runs.getD 0 ≤ 1 ∧
    (executeTask sampleZeroMax 50 60 (HandlerOutcome.ok [("deleted", 5)])).status = TaskStatus.pending ∧
    TaskStatus.pending ≠ TaskStatus.completed := by
  decide

/-- Claim C1 (amended): on a successful handler invocation with result `r`
the executor sets `last_result = r` and increments `run_count` by exactly 1;
then, if `max_runs` is set to a nonzero value and the new run count has
reached it, the status becomes COMPLETED; otherwise if `interval` is set to a
nonzero value, `next_run` becomes the completion time plus the interval and
the status becomes PENDING; otherwise the status becomes COMPLETED. -/
theorem executeTask_success_spec (t : Task) (sn en : Nat) (r : Value) :
    (executeTask t sn en (HandlerOutcome.ok r)).last_result = some r ∧
    (executeTask t sn en (HandlerOutcome.ok r)).run_count = t.run_count + 1 ∧
    (maxRunsReached t.max_runs (t.run_count + 1) = true →
      (executeTask t sn en (HandlerOutcome.ok r)).status = TaskStatus.completed) ∧
    (maxRunsReached t.max_runs (t.run_count + 1) = false →
      truthy t.interval_seconds = true →
      (executeTask t sn en (HandlerOutcome.ok r)).status = TaskStatus.pending ∧
      (executeTask t sn en (HandlerOutcome.ok r)).next_run = en + t.interval_seconds.getD 0) ∧
    (maxRunsReached t.max_runs (t.run_count + 1) = false →
      truthy t.interval_seconds = false →
      (executeTask t sn en (HandlerOutcome.ok r)).status = TaskStatus.completed) := by
  by_cases h1 : maxRunsReached t.max_runs (t.run_count + 1) <;>
    by_cases h2 : truthy t.interval_seconds <;>
      simp [executeTask, h1, h2]

/-- Witness for the amended C1: a recurring task with no `max_runs` stays
PENDING after a successful run, with `next_run` moved past the completion
time by its interval. -/
theorem executeTask_success_spec_witness :
    (executeTask samplePending 5 9 (HandlerOutcome.ok [("deleted", 5)])).status = TaskStatus.pending ∧
    (executeTask samplePending 5 9 (HandlerOutcome.ok [("deleted", 5)])).next_run =
      9 + samplePending.interval_seconds.getD 0 :=
  (executeTask_success_spec samplePending 5 9 [("deleted", 5)]).2.2.2.1
    (by decide) (by decide)

/-- Claim C2: a handler failure marks the task FAILED with `last_error` set to
the message; the failure is contained in the executor, so every other due task
of the same tick is still dispatched and lands in the state `_execute_task`
computes for it; and a FAILED task is neither dispatched nor modified by any
number of subsequent loop ticks. -/
theorem handler_failure_isolated :
    (∀ (t : Task) (sn en : Nat) (msg : String),
      (executeTask t sn en (HandlerOutcome.err msg)).status = TaskStatus.failed ∧
      (executeTask t sn en (HandlerOutcome.err msg)).last_error = some msg ∧
      (executeTask t sn en (HandlerOutcome.err msg)).run_count = t.run_count) ∧
    (∀ (s : SchedulerState) (now : Nat) (o : String → HandlerOutcome)
        (st et : String → Nat) (id : String) (t : Task),
      lookupKey s.tasks id = some t → dueNow t now = true →
      id ∈ (schedulerTick s now o st et).2 ∧
      lookupKey (schedulerTick s now o st et).1.tasks id =
        some (executeTask t (st id) (et id) (o id))) ∧
    (∀ (s : SchedulerState) (inputs : List TickInput) (id : String) (t : Task),
      goodState s → lookupKey s.tasks id = some t →
      t.status = TaskStatus.failed →
      lookupKey (runTicks s inputs).1.tasks id = some t ∧
      id ∉ (runTicks s inputs).2) := by
  refine ⟨?_, ?_, ?_⟩
  · intro t sn en msg
    simp [executeTask]
  · intro s now o st et id t hl hd
    refine ⟨?_, ?_⟩
    · exact (mem_tick_dispatched s now o st et id).mpr ⟨t, lookupKey_mem hl, hd⟩
    · rw [lookupKey_tick, hl, Option.map_some']
      simp [tickOne, hd]
  · intro s inputs id t hg hl hs
    refine runTicks_stable inputs s id t hg hl ?_
    rw [hs]; decide

/-- Witness for C2: in a registry holding a due pending task `a` and a failed
task `f`, a tick whose handlers all raise still dispatches `a`, marks it
FAILED with the message recorded, and never touches `f`. -/
theorem handler_failure_isolated_witness :
    (executeTask samplePending 200 200 (HandlerOutcome.err "boom")).status = TaskStatus.failed ∧
    "a" ∈ (schedulerTick stateMixed 200 (fun _ => HandlerOutcome.err "boom")
            (fun _ => 200) (fun _ => 200)).2 ∧
    "f" ∉ (runTicks stateMixed [failTick]).2 := by
  refine ⟨(handler_failure_isolated.1 samplePending 200 200 "boom").1, ?_, ?_⟩
  · exact (handler_failure_isolated.2.1 stateMixed 200 (fun _ => HandlerOutcome.err "boom")
      (fun _ => 200) (fun _ => 200) "a" samplePending (by decide) (by decide)).1
  · exact (handler_failure_isolated.2.2 stateMixed [failTick] "f" sampleFailed
      (by decide) (by decide) (by decide)).2

/-- Claim C3, counterexample.  The claim exempts terminal states from
cancellation, but `cancel_task` assigns `CANCELLED` unconditionally: a
COMPLETED task is transitioned to CANCELLED and the call reports success. -/
theorem cancelTask_terminal_counterexample :
    sampleCompleted.status = TaskStatus.completed ∧
    (cancelTask stateCompleted "done").1 = true ∧
    (lookupKey (cancelTask stateCompleted "done").2.tasks "done").map Task.status =
      some TaskStatus.cancelled ∧
    some TaskStatus.cancelled ≠ some TaskStatus.completed := by
  decide

/-- Claim C3 (amended): `cancel(id)` returns false when `id` is unknown;
otherwise it returns true and sets the task's status to CANCELLED regardless
of prior status — including the terminal states COMPLETED and FAILED — and
removes the task's entry from the handler registry. -/
theorem cancelTask_spec (s : SchedulerState) (id : String) :
    (lookupKey s.tasks id = none → cancelTask s id = (false, s)) ∧
    (∀ t, lookupKey s.tasks id = some t →
      (cancelTask s id).1 = true ∧
      lookupKey (cancelTask s id).2.tasks id =
        some { t with status := TaskStatus.cancelled } ∧
      lookupKey (cancelTask s id).2.task_handlers id = none) := by
  constructor
  · intro h; simp [cancelTask, h]
  · intro t h
    have h1 : cancelTask s id =
        (true,
         { tasks := updateTask s.tasks id (fun u => { u with status := TaskStatus.cancelled }),
           task_handlers := eraseKey s.task_handlers id }) := by
      simp [cancelTask, h]
    rw [h1]
    refine ⟨rfl, ?_, ?_⟩
    · rw [lookupKey_updateTask_self, h, Option.map_some']
    · exact lookupKey_eraseKey s.task_handlers id

/-- Witness for C3: cancelling the completed task `done` succeeds, rewrites
its status, and drops its handler entry. -/
theorem cancelTask_spec_witness :
    (cancelTask stateCompleted "done").1 = true ∧
    lookupKey (cancelTask stateCompleted "done").2.tasks "done" =
      some { sampleCompleted with status := TaskStatus.cancelled } ∧
    lookupKey (cancelTask stateCompleted "done").2.task_handlers "done" = none :=
  (cancelTask_spec stateCompleted "done").2 sampleCompleted (by decide)

/-- Claim C4: scheduling an id that already exists returns false and leaves
the whole scheduler state — in particular the existing record — unmodified;
scheduling a fresh id returns true and creates a PENDING record with
`next_run = start_time` and `run_count = 0` (and the remaining fields as
built by `schedule_task`). -/
theorem scheduleTask_spec (s : SchedulerState) (id : String) (hd : Nat)
    (start_time : Nat) (iv mx : Option Nat) (pr : TaskPriority) (now : Nat) :
    ((lookupKey s.tasks id).isSome = true →
      scheduleTask s id hd start_time iv mx pr now = (false, s)) ∧
    (lookupKey s.tasks id = none →
      (scheduleTask s id hd start_time iv mx pr now).1 = true ∧
      lookupKey (scheduleTask s id hd start_time iv mx pr now).2.tasks id =
        some { id := id, handler := hd, next_run := start_time,
               interval_seconds := iv, max_runs := mx, run_count := 0,
               priority := pr, status := TaskStatus.pending, created_at := now,
               last_run := none, last_result := none, last_error := none }) := by
  constructor
  · intro h; simp [scheduleTask, h]
  · intro h
    have hfresh : (lookupKey s.tasks id).isSome = false := by rw [h]; rfl
    constructor
    · simp [scheduleTask, hfresh]
    · simp only [scheduleTask, hfresh, Bool.false_eq_true, if_false]
      rw [insertKey_not_present s.tasks id _ h, lookupKey_append_none s.tasks _ id h]
      simp [lookupKey]

/-- Witness for C4: re-scheduling the existing id `job` fails and returns the
registry unchanged; scheduling `job` into the empty registry succeeds and
creates the fresh pending record. -/
theorem scheduleTask_spec_witness :
    scheduleTask statePending "job" 2 50 none none TaskPriority.high 7 = (false, statePending) ∧
    (scheduleTask emptyState "job" 1 100 (some 60) none TaskPriority.normal 0).1 = true ∧
    lookupKey (scheduleTask emptyState "job" 1 100 (some 60) none TaskPriority.normal 0).2.tasks "job" =
      some samplePending := by
  refine ⟨(scheduleTask_spec statePending "job" 2 50 none none TaskPriority.high 7).1 (by decide), ?_⟩
  have h := (scheduleTask_spec emptyState "job" 1 100 (some 60) none TaskPriority.normal 0).2 (by decide)
  refine ⟨h.1, ?_⟩
  rw [h.2]; rfl

/-- Claim C5: `pause(id)` succeeds — returning true and transitioning the task
to CANCELLED — exactly when the task exists with status PENDING; when the id
is unknown or the status is anything other than PENDING it returns false and
the state is unchanged. -/
theorem pauseTask_spec (s : SchedulerState) (id : String) :
    (lookupKey s.tasks id = none → pauseTask s id = (false, s)) ∧
    (∀ t, lookupKey s.tasks id = some t → t.status = TaskStatus.pending →
      (pauseTask s id).1 = true ∧
      lookupKey (pauseTask s id).2.tasks id =
        some { t with status := TaskStatus.cancelled }) ∧
    (∀ t, lookupKey s.tasks id = some t → t.status ≠ TaskStatus.pending →
      pauseTask s id = (false, s)) := by
  refine ⟨?_, ?_, ?_⟩
  · intro h; simp [pauseTask, h]
  · intro t h hp
    have h1 : pauseTask s id =
        (true, { s with tasks := updateTask s.tasks id (fun u => { u with status := TaskStatus.cancelled }) }) := by
      simp [pauseTask, h, hp]
    rw [h1]
    exact ⟨rfl, by rw [lookupKey_updateTask_self, h, Option.map_some']⟩
  · intro t h hp; simp [pauseTask, h, hp]

/-- Witness for C5: pausing the pending task `job` succeeds and cancels it;
pausing the completed task `done` fails and leaves the registry unchanged. -/
theorem pauseTask_spec_witness :
    (pauseTask statePending "job").1 = true ∧
    lookupKey (pauseTask statePending "job").2.tasks "job" =
      some { samplePending with status := TaskStatus.cancelled } ∧
    pauseTask stateCompleted "done" = (false, stateCompleted) := by
  have h1 := (pauseTask_spec statePending "job").2.1 samplePending (by decide) (by decide)
  have h2 := (pauseTask_spec stateCompleted "done").2.2 sampleCompleted (by decide) (by decide)
  exact ⟨h1.1, h1.2, h2⟩

/-- Claim C6, counterexample.  The claim asserts the resulting
`next_run >= now`, but `resume_task` stores a caller-supplied
`new_start_time` verbatim: resuming at time 1000 with `new_start_time = 0`
succeeds and leaves `next_run = 0`, which is before `now`. -/
theorem resumeTask_past_counterexample :
    (resumeTask stateCancelled "paused" (some 0) 1000).1 = true ∧
    (lookupKey (resumeTask stateCancelled "paused" (some 0) 1000).2.tasks "paused").map Task.next_run =
      some 0 ∧
    ¬ (1000 ≤ (0 : Nat)) := by
  decide

/-- Claim C6 (amended): `resume(id, new_start_time?)` returns true exactly
when the task exists with status CANCELLED; it then becomes PENDING with
`next_run = new_start_time` when one is supplied (which may lie in the past),
or `now + 5 minutes` when omitted — in the omitted case `next_run >= now`.
In every other case it returns false and changes nothing. -/
theorem resumeTask_spec (s : SchedulerState) (id : String) (nst : Option Nat)
    (now : Nat) :
    (lookupKey s.tasks id = none → resumeTask s id nst now = (false, s)) ∧
    (∀ t, lookupKey s.tasks id = some t → t.status ≠ TaskStatus.cancelled →
      resumeTask s id nst now = (false, s)) ∧
    (∀ t, lookupKey s.tasks id = some t → t.status = TaskStatus.cancelled →
      (resumeTask s id nst now).1 = true ∧
      lookupKey (resumeTask s id nst now).2.tasks id =
        some { t with status := TaskStatus.pending,
                      next_run := nst.getD (now + 300) } ∧
      (nst = none → now ≤ nst.getD (now + 300))) := by
  refine ⟨?_, ?_, ?_⟩
  · intro h; simp [resumeTask, h]
  · intro t h hc; simp [resumeTask, h, hc]
  · intro t h hc
    have h1 : resumeTask s id nst now =
        (true, { s with tasks := updateTask s.tasks id (fun u =>
          { u with status := TaskStatus.pending,
                   next_run := nst.getD (now + 300) }) }) := by
      simp [resumeTask, h, hc]
    rw [h1]
    refine ⟨rfl, ?_, ?_⟩
    · rw [lookupKey_updateTask_self, h, Option.map_some']
    · intro hn; rw [hn]; exact Nat.le_add_right now 300

/-- Witness for the amended C6: resuming the cancelled task `paused` at time
1000 with the start time omitted succeeds, with `next_run = 1300 >= 1000`. -/
theorem resumeTask_spec_witness :
    (resumeTask stateCancelled "paused" none 1000).1 = true ∧
    lookupKey (resumeTask stateCancelled "paused" none 1000).2.tasks "paused" =
      some { sampleCancelled with status := TaskStatus.pending, next_run := 1300 } ∧
    1000 ≤ (1300 : Nat) := by
  have h := (resumeTask_spec stateCancelled "paused" none 1000).2.2
    sampleCancelled (by decide) (by decide)
  exact ⟨h.1, by rw [h.2.1]; rfl, h.2.2 rfl⟩

/-- Claim C7, counterexample.  In the scenario `schedule("cleanup", H, T0,
interval=86400)` with `T0 = 1000`, a tick at 1030 whose execution also
completes at 1030 yields `run_count = 1`, `status = PENDING` and
`last_result` as claimed, but `next_run = 1030 + 86400 = 87430`, not
`T0 + 86400 = 87400`: `_execute_task` reschedules from `utcnow()` at
completion, not from the original start time. -/
theorem cleanup_scenario_counterexample :
    (lookupKey (cleanupAfterTick 7 1000 900 1030 1030 1030).tasks "cleanup").map Task.run_count =
      some 1 ∧
    (lookupKey (cleanupAfterTick 7 1000 900 1030 1030 1030).tasks "cleanup").map Task.status =
      some TaskStatus.pending ∧
    (lookupKey (cleanupAfterTick 7 1000 900 1030 1030 1030).tasks "cleanup").map Task.last_result =
      some (some [("deleted", 5)]) ∧
    (lookupKey (cleanupAfterTick 7 1000 900 1030 1030 1030).tasks "cleanup").map Task.next_run =
      some 87430 ∧
    (87430 : Nat) ≠ 1000 + 86400 := by
  decide

/-- Claim C7 (amended): for `schedule("cleanup", H, T0, interval=86400)`,
after the first tick at or after `T0` in which `H` runs once and returns the
record `deleted = 5`, the task satisfies `run_count = 1`, `status = PENDING`,
`last_result` = that record, and `next_run = completion_time + 86400` (which
equals `T0 + 86400` exactly when the run completes at `T0`). -/
theorem cleanup_scenario_spec (hd T0 cAt tickT es ee : Nat) (h : T0 ≤ tickT) :
    lookupKey (cleanupAfterTick hd T0 cAt tickT es ee).tasks "cleanup" =
      some { id := "cleanup", handler := hd, next_run := ee + 86400,
             interval_seconds := some 86400, max_runs := none, run_count := 1,
             priority := TaskPriority.normal, status := TaskStatus.pending,
             created_at := cAt, last_run := some es,
             last_result := some [("deleted", 5)], last_error := none } := by
  simp [cleanupAfterTick, scheduleTask, emptyState, insertKey, lookupKey,
        schedulerTick, tickOne, dueNow, executeTask, maxRunsReached, truthy, h]

/-- Witness for the amended C7 at `T0 = 1000`, tick and completion at 1030. -/
theorem cleanup_scenario_spec_witness :
    lookupKey (cleanupAfterTick 7 1000 900 1030 1030 1030).tasks "cleanup" =
      some { id := "cleanup", handler := 7, next_run := 1030 + 86400,
             interval_seconds := some 86400, max_runs := none, run_count := 1,
             priority := TaskPriority.normal, status := TaskStatus.pending,
             created_at := 900, last_run := some 1030,
             last_result := some [("deleted", 5)], last_error := none } :=
  cleanup_scenario_spec 7 1000 900 1030 1030 1030 (by decide)

/-- Claim C8: cancelling an existing PENDING task succeeds and immediately
marks it CANCELLED, removes its entry from the handler registry, and no
sequence of subsequent loop ticks ever dispatches its id or alters its record
(absent an external `resume`/`reschedule`, which are the stated
exceptions). -/
theorem cancel_blocks_dispatch (s : SchedulerState) (id : String) (t : Task)
    (hg : goodState s) (hl : lookupKey s.tasks id = some t)
    (hp : t.status = TaskStatus.pending) :
    (cancelTask s id).1 = true ∧
    lookupKey (cancelTask s id).2.tasks id =
      some { t with status := TaskStatus.cancelled } ∧
    lookupKey (cancelTask s id).2.task_handlers id = none ∧
    ∀ inputs : List TickInput,
      lookupKey (runTicks (cancelTask s id).2 inputs).1.tasks id =
        some { t with status := TaskStatus.cancelled } ∧
      id ∉ (runTicks (cancelTask s id).2 inputs).2 := by
  have h1 : cancelTask s id =
      (true,
       { tasks := updateTask s.tasks id (fun u => { u with status := TaskStatus.cancelled }),
         task_handlers := eraseKey s.task_handlers id }) := by
    simp [cancelTask, hl]
  have hlc : lookupKey (cancelTask s id).2.tasks id =
      some { t with status := TaskStatus.cancelled } := by
    rw [h1, lookupKey_updateTask_self, hl, Option.map_some']
  have hgc : goodState (cancelTask s id).2 := by
    rw [h1]; unfold goodState
    rw [updateTask_keys]; exact hg
  refine ⟨by rw [h1], hlc, by rw [h1]; exact lookupKey_eraseKey _ _, ?_⟩
  intro inputs
  have hres := runTicks_stable inputs (cancelTask s id).2 id
    { t with status := TaskStatus.cancelled } hgc hlc (by simp)
  exact ⟨hres.1, hres.2⟩

/-- Witness for C8: after cancelling the pending task `job`, a tick at time
200 (where it was due) does not dispatch it and leaves it cancelled. -/
theorem cancel_blocks_dispatch_witness :
    "job" ∉ (runTicks (cancelTask statePending "job").2 [sampleTick]).2 ∧
    lookupKey (runTicks (cancelTask statePending "job").2 [sampleTick]).1.tasks "job" =
      some { samplePending with status := TaskStatus.cancelled } := by
  have h := cancel_blocks_dispatch statePending "job" samplePending
    (by decide) (by decide) (by decide)
  exact ⟨(h.2.2.2 [sampleTick]).2, (h.2.2.2 [sampleTick]).1⟩

/-- Claim C9: no scheduler operation ever decreases a task's `run_count`:
for each of `schedule`, `cancel`, `pause`, `resume`, `reschedule`,
`force_run` and a loop tick, any task present before and after the operation
has a new `run_count` greater than or equal to its old one. -/
theorem run_count_monotone :
    (∀ (s : SchedulerState) (id : String) (hd start_time : Nat)
        (iv mx : Option Nat) (pr : TaskPriority) (now : Nat),
      runCountMono s (scheduleTask s id hd start_time iv mx pr now).2) ∧
    (∀ (s : SchedulerState) (id : String), runCountMono s (cancelTask s id).2) ∧
    (∀ (s : SchedulerState) (id : String), runCountMono s (pauseTask s id).2) ∧
    (∀ (s : SchedulerState) (id : String) (nst : Option Nat) (now : Nat),
      runCountMono s (resumeTask s id nst now).2) ∧
    (∀ (s : SchedulerState) (id : String) (nst : Nat) (ni : Option Nat),
      runCountMono s (rescheduleTask s id nst ni).2) ∧
    (∀ (s : SchedulerState) (id : String) (sn en : Nat) (oc : HandlerOutcome),
      runCountMono s (forceRunTask s id sn en oc).2) ∧
    (∀ (s : SchedulerState) (now : Nat) (o : String → HandlerOutcome)
        (st et : String → Nat),
      runCountMono s (schedulerTick s now o st et).1) := by
  refine ⟨?_, ?_, ?_, ?_, ?_, ?_, ?_⟩
  · intro s id hd stt iv mx pr now
    cases h : (lookupKey s.tasks id).isSome with
    | true =>
      have : (scheduleTask s id hd stt iv mx pr now).2 = s := by
        simp [scheduleTask, h]
      rw [this]; exact runCountMono_self s
    | false =>
      have hn : lookupKey s.tasks id = none := by
        cases hx : lookupKey s.tasks id
        · rfl
        · rw [hx] at h; simp at h
      intro k t t' h1 h2
      simp only [scheduleTask, h, Bool.false_eq_true, if_false] at h2
      rw [insertKey_not_present s.tasks id _ hn] at h2
      rw [lookupKey_append_some s.tasks _ k t h1] at h2
      cases h2; exact Nat.le_refl _
  · intro s id
    cases h : lookupKey s.tasks id with
    | none =>
      have : (cancelTask s id).2 = s := by simp [cancelTask, h]
      rw [this]; exact runCountMono_self s
    | some u =>
      have : (cancelTask s id).2 =
          { tasks := updateTask s.tasks id (fun v => { v with status := TaskStatus.cancelled }),
            task_handlers := eraseKey s.task_handlers id } := by
        simp [cancelTask, h]
      rw [this]
      exact runCountMono_of_update s _ _ id
        (fun v => { v with status := TaskStatus.cancelled })
        (fun v => Nat.le_refl _) rfl
  · intro s id
    cases h : lookupKey s.tasks id with
    | none =>
      have : (pauseTask s id).2 = s := by simp [pauseTask, h]
      rw [this]; exact runCountMono_self s
    | some u =>
      by_cases hp : u.status = TaskStatus.pending
      · have : (pauseTask s id).2 =
            { s with tasks := updateTask s.tasks id (fun v => { v with status := TaskStatus.cancelled }) } := by
          simp [pauseTask, h, hp]
        rw [this]
        exact runCountMono_of_update s _ _ id
          (fun v => { v with status := TaskStatus.cancelled })
          (fun v => Nat.le_refl _) rfl
      · have : (pauseTask s id).2 = s := by simp [pauseTask, h, hp]
        rw [this]; exact runCountMono_self s
  · intro s id nst now
    cases h : lookupKey s.tasks id with
    | none =>
      have : (resumeTask s id nst now).2 = s := by simp [resumeTask, h]
      rw [this]; exact runCountMono_self s
    | some u =>
      by_cases hc : u.status = TaskStatus.cancelled
      · have : (resumeTask s id nst now).2 =
            { s with tasks := updateTask s.tasks id (fun v =>
              { v with status := TaskStatus.pending, next_run := nst.getD (now + 300) }) } := by
          simp [resumeTask, h, hc]
        rw [this]
        exact runCountMono_of_update s _ _ id
          (fun v => { v with status := TaskStatus.pending, next_run := nst.getD (now + 300) })
          (fun v => Nat.le_refl _) rfl
      · have : (resumeTask s id nst now).2 = s := by simp [resumeTask, h, hc]
        rw [this]; exact runCountMono_self s
  · intro s id nst ni
    cases h : lookupKey s.tasks id with
    | none =>
      have : (rescheduleTask s id nst ni).2 = s := by simp [rescheduleTask, h]
      rw [this]; exact runCountMono_self s
    | some u =>
      have : (rescheduleTask s id nst ni).2 =
          { s with tasks := updateTask s.tasks id (fun v =>
            let v1 := { v with next_run := nst }
            let v2 := if truthy ni then { v1 with interval_seconds := ni } else v1
            { v2 with status := TaskStatus.pending }) } := by
        simp [rescheduleTask, h]
      rw [this]
      refine runCountMono_of_update s _ _ id
        (fun v =>
          let v1 := { v with next_run := nst }
          let v2 := if truthy ni then { v1 with interval_seconds := ni } else v1
          { v2 with status := TaskStatus.pending }) ?_ rfl
      intro v
      cases htr : truthy ni <;> simp [htr]
  · intro s id sn en oc
    cases h : lookupKey s.tasks id with
    | none =>
      have : (forceRunTask s id sn en oc).2 = s := by simp [forceRunTask, h]
      rw [this]; exact runCountMono_self s
    | some u =>
      have : (forceRunTask s id sn en oc).2 =
          { s with tasks := updateTask s.tasks id (fun v => executeTask v sn en oc) } := by
        simp [forceRunTask, h]
      rw [this]
      exact runCountMono_of_update s _ _ id (fun v => executeTask v sn en oc)
        (fun v => run_count_le_executeTask v sn en oc) rfl
  · intro s now o st et
    intro k t t' h1 h2
    rw [lookupKey_tick, h1, Option.map_some'] at h2
    cases h2
    exact run_count_le_tickOne now o st et k t

/-- Witness for C9: forcing a run of the pending task `job` does not decrease
its run count. -/
theorem run_count_monotone_witness :
    samplePending.run_count ≤ (executeTask samplePending 5 9 (HandlerOutcome.ok [])).run_count :=
  run_count_monotone.2.2.2.2.2.1 statePending "job" 5 9 (HandlerOutcome.ok [])
    "job" samplePending (executeTask samplePending 5 9 (HandlerOutcome.ok []))
    (by decide) (by decide)

/-- Claim C10: `force_run(id)` returns false exactly when the id is unknown;
for every existing task it returns true and hands the record to
`_execute_task` immediately — whatever its current status and `next_run` —
so the record ends up in exactly the state the executor computes from the
handler outcome. -/
theorem forceRunTask_spec (s : SchedulerState) (id : String) (sn en : Nat)
    (oc : HandlerOutcome) :
    (lookupKey s.tasks id = none → forceRunTask s id sn en oc = (false, s)) ∧
    (∀ t, lookupKey s.tasks id = some t →
      (forceRunTask s id sn en oc).1 = true ∧
      lookupKey (forceRunTask s id sn en oc).2.tasks id =
        some (executeTask t sn en oc)) := by
  constructor
  · intro h; simp [forceRunTask, h]
  · intro t h
    have h1 : forceRunTask s id sn en oc =
        (true, { s with tasks := updateTask s.tasks id (fun u => executeTask u sn en oc) }) := by
      simp [forceRunTask, h]
    rw [h1]
    exact ⟨rfl, by rw [lookupKey_updateTask_self, h, Option.map_some']⟩

/-- Witness for C10: forcing a run of the CANCELLED task `paused` succeeds
and the handler is invoked — its successful result is written back by the
executor. -/
theorem forceRunTask_spec_witness :
    sampleCancelled.status = TaskStatus.cancelled ∧
    (forceRunTask stateCancelled "paused" 5 9 (HandlerOutcome.ok [("n", 1)])).1 = true ∧
    lookupKey (forceRunTask stateCancelled "paused" 5 9 (HandlerOutcome.ok [("n", 1)])).2.tasks "paused" =
      some (executeTask sampleCancelled 5 9 (HandlerOutcome.ok [("n", 1)])) := by
  have h := (forceRunTask_spec stateCancelled "paused" 5 9 (HandlerOutcome.ok [("n", 1)])).2
    sampleCancelled (by decide)
  exact ⟨by decide, h.1, h.2⟩

end AirShield
